import Mathlib

/-!
Verification development for the deep-research API server
(src/api/server.ts, src/output-manager.ts, src/types/api.ts).

The session registry, the WebSocket subscription handler, the background
research task settlement, and the progress fan-out handlers of
src/api/server.ts are embedded as pure Lean functions; the session
lifecycle is modelled as a list of handler invocations (a trace) applied
to the freshly created session.
-/

/-- ResearchProgress, from src/deep-research as consumed by
src/types/api.ts and src/output-manager.ts: the per-session progress
counters. JS numbers are modelled as Int. -/
structure ResearchProgress where
  currentDepth : Int
  totalDepth : Int
  currentBreadth : Int
  totalBreadth : Int
  currentQuery : Option String
  totalQueries : Int
  completedQueries : Int
deriving DecidableEq, Repr

/-- The session status union from src/types/api.ts:
'pending' | 'in-progress' | 'completed' | 'error'. -/
inductive Status where
  | pending
  | inProgress
  | completed
  | error
deriving DecidableEq, Repr

/-- The results object stored on a session (src/types/api.ts):
learnings, visitedUrls, and an optional report. -/
structure ResearchResults where
  learnings : List String
  visitedUrls : List String
  report : Option String
deriving DecidableEq, Repr

/-- ResearchSession from src/types/api.ts. Dates are modelled as Nat
timestamps. `error` is an optional field, absent (none) until the catch
handler assigns it. -/
structure ResearchSession where
  id : String
  status : Status
  query : String
  breadth : Int
  depth : Int
  additionalNotes : Option String
  mainPromptNotes : Option String
  progress : Option ResearchProgress
  results : Option ResearchResults
  error : Option String
  createdAt : Nat
  updatedAt : Nat
deriving DecidableEq, Repr

/-- The tagged event union ProgressUpdate from src/types/api.ts. The
declared type of the progress payload is non-nullable, but the onOutput
handler in src/api/server.ts sends session.progress through a non-null
assertion, so at runtime the payload may be null; the embedding therefore
carries an Option to describe what is actually written to the wire. -/
inductive ProgressUpdate where
  | progress (data : Option ResearchProgress)
  | completed (data : ResearchResults)
  | error (error : String)
deriving DecidableEq, Repr

/-- The create-session request body accepted by POST /api/research
(startResearchSchema in src/api/server.ts), with the nested model object
flattened into its three optional fields. -/
structure StartRequestBody where
  query : String
  breadth : Option Int := none
  depth : Option Int := none
  additionalNotes : Option String := none
  mainPromptNotes : Option String := none
  modelName : Option String := none
  modelEndpoint : Option String := none
  modelContextSize : Option Int := none
  concurrency : Option Int := none
  followUpQuestions : Option Int := none
deriving DecidableEq, Repr

/-- An optional field passes when absent, and must satisfy the range
check when present (zod .optional() with .min/.max). -/
def checkOpt (f : Int → Bool) : Option Int → Bool
  | none => true
  | some n => f n

/-- startResearchSchema.parse from src/api/server.ts lines 14-27:
query non-empty, breadth in [1,10], depth in [1,5], contextSize in
[1000,1000000], concurrency in [1,10], followUpQuestions in [1,10].
The zod .url() format check on the model endpoint is an external
validator and is taken as a parameter. -/
def startResearchValidate (isUrl : String → Bool) (b : StartRequestBody) : Bool :=
  (1 ≤ b.query.length) &&
  checkOpt (fun n => 1 ≤ n && n ≤ 10) b.breadth &&
  checkOpt (fun n => 1 ≤ n && n ≤ 5) b.depth &&
  (match b.modelEndpoint with
   | none => true
   | some e => isUrl e) &&
  checkOpt (fun n => 1000 ≤ n && n ≤ 1000000) b.modelContextSize &&
  checkOpt (fun n => 1 ≤ n && n ≤ 10) b.concurrency &&
  checkOpt (fun n => 1 ≤ n && n ≤ 10) b.followUpQuestions

/-- The session record built at src/api/server.ts lines 138-150:
status pending, defaults breadth=4 and depth=2, progress and results
null, no error. -/
def initSession (sessionId : String) (b : StartRequestBody) (now : Nat) : ResearchSession :=
  { id := sessionId
    status := .pending
    query := b.query
    breadth := b.breadth.getD 4
    depth := b.depth.getD 2
    additionalNotes := b.additionalNotes
    mainPromptNotes := b.mainPromptNotes
    progress := none
    results := none
    error := none
    createdAt := now
    updatedAt := now }

/-- enhancedQuery from src/api/server.ts lines 184-186. The JS
conditional tests truthiness, so an empty-string additionalNotes leaves
the query unchanged. -/
def enhancedQuery (query : String) (additionalNotes : Option String) : String :=
  match additionalNotes with
  | some notes =>
      if notes.isEmpty then query
      else query ++ "\n\nAdditional Context:\n" ++ notes
  | none => query

/-- The arguments the POST handler passes to the background work: the
deepResearch call (src/api/server.ts lines 189-197) and the prompt later
given to writeFinalReport (line 200). Both receive enhancedQuery. -/
structure ResearchLaunch where
  researchQuery : String
  breadth : Int
  depth : Int
  modelName : Option String
  modelEndpoint : Option String
  modelContextSize : Option Int
  concurrency : Option Int
  followUpQuestions : Option Int
  reportPrompt : String
deriving DecidableEq, Repr

/-- The launch parameters derived from a validated request body. -/
def launchOf (b : StartRequestBody) : ResearchLaunch :=
  { researchQuery := enhancedQuery b.query b.additionalNotes
    breadth := b.breadth.getD 4
    depth := b.depth.getD 2
    modelName := b.modelName
    modelEndpoint := b.modelEndpoint
    modelContextSize := b.modelContextSize
    concurrency := b.concurrency
    followUpQuestions := b.followUpQuestions
    reportPrompt := enhancedQuery b.query b.additionalNotes }

/-- POST /api/research (src/api/server.ts lines 132-243): parse the body;
on validation failure the catch forwards the error and no session is
stored; on success the session is added to the registry, the background
task is launched with launchOf, and {sessionId, status} is returned. -/
def postResearch (isUrl : String → Bool)
    (sessions : List (String × ResearchSession))
    (sessionId : String) (now : Nat) (b : StartRequestBody) :
    List (String × ResearchSession) × Except String (String × Status × ResearchLaunch) :=
  if startResearchValidate isUrl b then
    let session := initSession sessionId b now
    ((sessionId, session) :: sessions, .ok (sessionId, session.status, launchOf b))
  else
    (sessions, .error "Validation error")

/-- sessions.get on the registry map. -/
def lookupSession (sessions : List (String × ResearchSession)) (sid : String) :
    Option ResearchSession :=
  match sessions with
  | [] => none
  | (k, v) :: rest => if k = sid then some v else lookupSession rest sid

/-- The initial replay sent to a freshly attached subscriber
(src/api/server.ts lines 106-113): a completed event if session.results
is set, else a progress event with the stored snapshot, else a progress
event with zeroed counters and the session's configured totals. -/
def initialUpdate (s : ResearchSession) : ProgressUpdate :=
  match s.results with
  | some r => .completed r
  | none =>
    match s.progress with
    | some p => .progress (some p)
    | none => .progress (some
        { currentDepth := 0
          totalDepth := s.depth
          currentBreadth := 0
          totalBreadth := s.breadth
          currentQuery := none
          totalQueries := 0
          completedQueries := 0 })

/-- Outcome of a WebSocket connection attempt: either closed with a
close code and reason, or accepted with the single initial replay
event. -/
inductive ConnectOutcome where
  | closed (code : Nat) (reason : String)
  | accepted (replay : ProgressUpdate)
deriving DecidableEq, Repr

/-- The close code of a refused connection, none if accepted. -/
def ConnectOutcome.closeCode : ConnectOutcome → Option Nat
  | .closed c _ => some c
  | .accepted _ => none

/-- The wss connection handler (src/api/server.ts lines 82-113): a
failed API-key check closes with 1008 'Invalid API key'; a missing,
empty (falsy) or unknown sessionId closes with 1008 'Invalid session
ID'; otherwise the subscriber is registered and receives exactly one
initial replay event. -/
def wsConnect (apiKeyOk : Bool) (sessionId : Option String)
    (sessions : List (String × ResearchSession)) : ConnectOutcome :=
  if !apiKeyOk then .closed 1008 "Invalid API key"
  else
    match sessionId with
    | none => .closed 1008 "Invalid session ID"
    | some sid =>
      if sid.isEmpty then .closed 1008 "Invalid session ID"
      else
        match lookupSession sessions sid with
        | none => .closed 1008 "Invalid session ID"
        | some s => .accepted (initialUpdate s)

/-- OutputManager.log (src/output-manager.ts lines 29-33): the args are
joined with a space and handed to the onOutput callback. -/
def logMessage (args : List String) : String := String.intercalate " " args

/-- The onOutput handler installed at src/api/server.ts lines 157-166:
it ignores the log message and sends a progress event whose data is the
raw session.progress field (through a non-null assertion, so the payload
is null when no progress update has been recorded yet). -/
def onOutputEvent (s : ResearchSession) (_message : String) : ProgressUpdate :=
  .progress s.progress

/-- The fan-out of one update to every registered subscriber
(subscribers.forEach(ws => ws.send(...))). -/
def broadcastTo (subs : List String) (u : ProgressUpdate) : List (String × ProgressUpdate) :=
  subs.map (fun ws => (ws, u))

/-- The onProgress handler (src/api/server.ts lines 167-171): store the
snapshot, bump updatedAt, set status to in-progress. -/
def onProgressStep (s : ResearchSession) (p : ResearchProgress) (now : Nat) : ResearchSession :=
  { s with progress := some p, updatedAt := now, status := .inProgress }

/-- The success continuation of the background task (src/api/server.ts
lines 206-211): store the results and mark the session completed. -/
def completeStep (s : ResearchSession) (r : ResearchResults) (now : Nat) : ResearchSession :=
  { s with results := some r, status := .completed, updatedAt := now }

/-- The catch handler of the background task (src/api/server.ts lines
221-224): mark the session errored and record the message. -/
def failStep (s : ResearchSession) (msg : String) (now : Nat) : ResearchSession :=
  { s with status := .error, error := some msg, updatedAt := now }

/-- The research phase's aggregate before report synthesis: the shape
resolved by deepResearch (learnings and visitedUrls). -/
structure ResearchResultsCore where
  learnings : List String
  visitedUrls : List String
deriving DecidableEq, Repr

/-- Settlement of the background task, src/api/server.ts lines 197-234:
deepResearch(...).then(results => { report = await writeFinalReport(...);
session.results = {...results, report}; status completed; broadcast
completed }).catch(err => { status error; error = message; broadcast
error }). The catch receives both a deepResearch rejection and a
writeFinalReport rejection; on either, session.results is left
untouched. -/
def settleSession (s : ResearchSession) (now : Nat)
    (research : Except String ResearchResultsCore)
    (writeReport : ResearchResultsCore → Except String String) :
    ResearchSession × ProgressUpdate :=
  match research with
  | .error e => (failStep s e now, .error e)
  | .ok core =>
    match writeReport core with
    | .error e => (failStep s e now, .error e)
    | .ok report =>
      let r : ResearchResults :=
        { learnings := core.learnings, visitedUrls := core.visitedUrls, report := some report }
      (completeStep s r now, .completed r)

/-- One invocation of a session-mutating or broadcasting handler during
the session's lifetime. -/
inductive SessionOp where
  | progress (p : ResearchProgress) (now : Nat)
  | complete (r : ResearchResults) (now : Nat)
  | fail (msg : String) (now : Nat)
  | output (args : List String)
deriving DecidableEq, Repr

/-- The handler's effect on the session record. A log fan-out does not
touch the session. -/
def applyOp (s : ResearchSession) : SessionOp → ResearchSession
  | .progress p now => onProgressStep s p now
  | .complete r now => completeStep s r now
  | .fail msg now => failStep s msg now
  | .output _ => s

/-- The event each handler offers to the subscribers of the session. -/
def opEvent (s : ResearchSession) : SessionOp → ProgressUpdate
  | .progress p _ => .progress (some p)
  | .complete r _ => .completed r
  | .fail msg _ => .error msg
  | .output args => onOutputEvent s (logMessage args)

/-- The session after a sequence of handler invocations. -/
def runState (s : ResearchSession) : List SessionOp → ResearchSession
  | [] => s
  | op :: rest => runState (applyOp s op) rest

/-- Every session record observable along a sequence of handler
invocations, the starting record included. -/
def runStates (s : ResearchSession) : List SessionOp → List ResearchSession
  | [] => [s]
  | op :: rest => s :: runStates (applyOp s op) rest

/-- The events broadcast along a sequence of handler invocations. -/
def runEvents (s : ResearchSession) : List SessionOp → List ProgressUpdate
  | [] => []
  | op :: rest => opEvent s op :: runEvents (applyOp s op) rest

/-- An operation that settles the background task's promise. -/
def isSettle : SessionOp → Bool
  | .complete _ _ => true
  | .fail _ _ => true
  | .progress _ _ => false
  | .output _ => false

/-- Modelled from the spec: deep-research.ts is not among the sources,
so the order in which it invokes the progress/log callbacks relative to
the promise settling is taken from the spec's structured-concurrency
contract — every callback fires before the promise settles, a promise
settles at most once, and nothing runs after settlement. A trace is
admissible when any settling operation is the last operation. -/
def admissible : List SessionOp → Bool
  | [] => true
  | op :: rest => if isSettle op then rest.isEmpty else admissible rest

/-- Numeric rank of a status: pending before in-progress before the two
terminal states. -/
def statusRank : Status → Nat
  | .pending => 0
  | .inProgress => 1
  | .completed => 2
  | .error => 2

/-- completed and error are the terminal states. -/
def Status.isTerminal : Status → Bool
  | .completed => true
  | .error => true
  | .pending => false
  | .inProgress => false

/-- One admissible move of the status machine: stay put, or strictly
climb the rank order (so neither terminal state can be left, and the two
terminal states cannot replace one another). -/
def statusStep (a b : Status) : Prop := a = b ∨ statusRank a < statusRank b

/-- Recognizer for progress events. -/
def isProgressEvent : ProgressUpdate → Bool
  | .progress _ => true
  | .completed _ => false
  | .error _ => false

/-- Recognizer for terminal (completed or error) events. -/
def isTerminalEvent : ProgressUpdate → Bool
  | .completed _ => true
  | .error _ => true
  | .progress _ => false

/-- No progress event is emitted after any terminal event of the
list. -/
def noProgressAfterTerminal : List ProgressUpdate → Bool
  | [] => true
  | u :: rest =>
      (!(isTerminalEvent u) || !(rest.any isProgressEvent)) && noProgressAfterTerminal rest

/-- The session-record invariant: results present exactly in the
completed state, error present exactly in the error state, no snapshot
while pending, a snapshot present while in progress. -/
def sessionInv (s : ResearchSession) : Prop :=
  (s.results ≠ none ↔ s.status = .completed) ∧
  (s.error ≠ none ↔ s.status = .error) ∧
  (s.status = .pending → s.progress = none) ∧
  (s.status = .inProgress → s.progress ≠ none)

lemma sessionInv_init (sid : String) (b : StartRequestBody) (now : Nat) :
    sessionInv (initSession sid b now) := by
  simp [sessionInv, initSession]

lemma applyOp_nonterm_status (s : ResearchSession) (op : SessionOp)
    (hop : isSettle op = false) :
    (applyOp s op).status = .inProgress ∨ (applyOp s op).status = s.status := by
  cases op with
  | progress p now => exact Or.inl rfl
  | complete r now => simp [isSettle] at hop
  | fail msg now => simp [isSettle] at hop
  | output args => exact Or.inr rfl

lemma sessionInv_applyOp (s : ResearchSession) (op : SessionOp)
    (hs : sessionInv s) (h1 : s.status ≠ .completed) (h2 : s.status ≠ .error) :
    sessionInv (applyOp s op) := by
  obtain ⟨i1, i2, i3, i4⟩ := hs
  have hr : s.results = none := by
    by_contra h
    exact h1 (i1.mp h)
  have he : s.error = none := by
    by_contra h
    exact h2 (i2.mp h)
  cases op with
  | progress p now =>
    simp [applyOp, onProgressStep, sessionInv, hr, he]
  | complete r now =>
    simp [applyOp, completeStep, sessionInv, hr, he]
  | fail msg now =>
    simp [applyOp, failStep, sessionInv, hr, he]
  | output args =>
    exact ⟨i1, i2, i3, i4⟩

lemma admissible_settle (op : SessionOp) (rest : List SessionOp)
    (hset : isSettle op = true) (hadm : admissible (op :: rest) = true) :
    rest = [] := by
  simp [admissible, hset] at hadm
  exact hadm

lemma admissible_tail (op : SessionOp) (rest : List SessionOp)
    (hset : isSettle op = false) (hadm : admissible (op :: rest) = true) :
    admissible rest = true := by
  simpa [admissible, hset] using hadm

lemma sessionInv_runStates (ops : List SessionOp) (s : ResearchSession)
    (hadm : admissible ops = true) (hs : sessionInv s)
    (h1 : s.status ≠ .completed) (h2 : s.status ≠ .error) :
    ∀ t ∈ runStates s ops, sessionInv t := by
  induction ops generalizing s with
  | nil =>
    intro t ht
    simp only [runStates, List.mem_singleton] at ht
    subst ht
    exact hs
  | cons op rest ih =>
    intro t ht
    simp only [runStates, List.mem_cons] at ht
    rcases ht with rfl | ht
    · exact hs
    · by_cases hset : isSettle op = true
      · have hrest := admissible_settle op rest hset hadm
        subst hrest
        simp only [runStates, List.mem_singleton] at ht
        subst ht
        exact sessionInv_applyOp s op hs h1 h2
      · have hset' : isSettle op = false := by
          simpa using hset
        have hadm' := admissible_tail op rest hset' hadm
        have hinv' := sessionInv_applyOp s op hs h1 h2
        rcases applyOp_nonterm_status s op hset' with hst | hst
        · exact ih (applyOp s op) hadm' hinv' (by rw [hst]; simp) (by rw [hst]; simp) t ht
        · exact ih (applyOp s op) hadm' hinv' (by rw [hst]; exact h1) (by rw [hst]; exact h2) t ht

lemma runState_mem (s : ResearchSession) (ops : List SessionOp) :
    runState s ops ∈ runStates s ops := by
  induction ops generalizing s with
  | nil => simp [runState, runStates]
  | cons op rest ih =>
    simp only [runState, runStates, List.mem_cons]
    exact Or.inr (ih (applyOp s op))

lemma runStates_head (s : ResearchSession) (ops : List SessionOp) :
    (runStates s ops).head? = some s := by
  cases ops <;> rfl

lemma statusRank_le_one (st : Status) (h1 : st ≠ .completed) (h2 : st ≠ .error) :
    statusRank st ≤ 1 := by
  cases st <;> simp_all [statusRank]

lemma statusChain (ops : List SessionOp) (s : ResearchSession)
    (hadm : admissible ops = true)
    (h1 : s.status ≠ .completed) (h2 : s.status ≠ .error) :
    List.Chain' (fun a b => statusStep a.status b.status) (runStates s ops) := by
  induction ops generalizing s with
  | nil => simp [runStates]
  | cons op rest ih =>
    rw [runStates, List.chain'_cons']
    constructor
    · intro b hb
      rw [runStates_head] at hb
      simp only [Option.mem_def, Option.some.injEq] at hb
      subst hb
      cases op with
      | progress p now =>
        cases hst : s.status with
        | pending => exact Or.inr (by simp [applyOp, onProgressStep, hst, statusRank])
        | inProgress => exact Or.inl (by simp [applyOp, onProgressStep, hst])
        | completed => exact absurd hst h1
        | error => exact absurd hst h2
      | complete r now =>
        refine Or.inr ?_
        have h := statusRank_le_one s.status h1 h2
        have hst : (applyOp s (SessionOp.complete r now)).status = Status.completed := rfl
        rw [hst]
        have h2' : statusRank Status.completed = 2 := rfl
        omega
      | fail msg now =>
        refine Or.inr ?_
        have h := statusRank_le_one s.status h1 h2
        have hst : (applyOp s (SessionOp.fail msg now)).status = Status.error := rfl
        rw [hst]
        have h2' : statusRank Status.error = 2 := rfl
        omega
      | output args => exact Or.inl rfl
    · by_cases hset : isSettle op = true
      · have hrest := admissible_settle op rest hset hadm
        subst hrest
        simp [runStates]
      · have hset' : isSettle op = false := by simpa using hset
        have hadm' := admissible_tail op rest hset' hadm
        rcases applyOp_nonterm_status s op hset' with hst | hst
        · exact ih (applyOp s op) hadm' (by rw [hst]; simp) (by rw [hst]; simp)
        · exact ih (applyOp s op) hadm' (by rw [hst]; exact h1) (by rw [hst]; exact h2)

lemma opEvent_nonterm (s : ResearchSession) (op : SessionOp)
    (hop : isSettle op = false) :
    isTerminalEvent (opEvent s op) = false := by
  cases op with
  | progress p now => rfl
  | complete r now => simp [isSettle] at hop
  | fail msg now => simp [isSettle] at hop
  | output args => rfl

lemma noProgressAfterTerminal_runEvents (ops : List SessionOp) (s : ResearchSession)
    (hadm : admissible ops = true) :
    noProgressAfterTerminal (runEvents s ops) = true := by
  induction ops generalizing s with
  | nil => rfl
  | cons op rest ih =>
    by_cases hset : isSettle op = true
    · have hrest := admissible_settle op rest hset hadm
      subst hrest
      simp [runEvents, noProgressAfterTerminal]
    · have hset' : isSettle op = false := by simpa using hset
      have hadm' := admissible_tail op rest hset' hadm
      simp only [runEvents, noProgressAfterTerminal]
      rw [opEvent_nonterm s op hset']
      simp [ih (applyOp s op) hadm']

/-- A concrete request body used to instantiate theorems. -/
def bodyW : StartRequestBody := { query := "quantum computing" }

/-- A concrete progress snapshot. -/
def progW : ResearchProgress :=
  { currentDepth := 1
    totalDepth := 2
    currentBreadth := 2
    totalBreadth := 4
    currentQuery := some "latest developments"
    totalQueries := 4
    completedQueries := 1 }

/-- A concrete completed-results record. -/
def resultsW : ResearchResults :=
  { learnings := ["finding one"]
    visitedUrls := ["https://example.com/a"]
    report := some "report text" }

/-- A concrete freshly created session. -/
def sInitW : ResearchSession := initSession "sess-1" bodyW 0

/-- A concrete admissible lifetime: one progress update, then
completion. -/
def opsW : List SessionOp := [.progress progW 1, .complete resultsW 2]

/-- The concrete session after running opsW. -/
def sDoneW : ResearchSession := runState sInitW opsW

/-- Claim C6: over every session lifetime (create, then an admissible
sequence of handler invocations), the observed statuses form a
monotonically non-decreasing walk through pending, in-progress, then
completed or error, no operation leaves a terminal state, and no
progress event is emitted after a terminal event. -/
theorem session_status_monotone (sid : String) (b : StartRequestBody) (now : Nat)
    (ops : List SessionOp) (hadm : admissible ops = true) :
    List.Chain' (fun a b => statusStep a.status b.status)
      (runStates (initSession sid b now) ops) ∧
    noProgressAfterTerminal (runEvents (initSession sid b now) ops) = true := by
  refine ⟨?_, ?_⟩
  · exact statusChain ops (initSession sid b now) hadm
      (by simp [initSession]) (by simp [initSession])
  · exact noProgressAfterTerminal_runEvents ops (initSession sid b now) hadm

/-- Witness for C6 on a concrete lifetime. -/
theorem session_status_monotone_witness :
    List.Chain' (fun a b => statusStep a.status b.status)
      (runStates (initSession "sess-1" bodyW 0) opsW) ∧
    noProgressAfterTerminal (runEvents (initSession "sess-1" bodyW 0) opsW) = true :=
  session_status_monotone "sess-1" bodyW 0 opsW (by decide)

/-- Claim C7: at every point of a session's lifetime, the results field
is non-null iff the status is completed, and the error field is non-null
iff the status is error. -/
theorem result_error_iff_status (sid : String) (b : StartRequestBody) (now : Nat)
    (ops : List SessionOp) (t : ResearchSession)
    (hadm : admissible ops = true)
    (ht : t ∈ runStates (initSession sid b now) ops) :
    (t.results ≠ none ↔ t.status = .completed) ∧
    (t.error ≠ none ↔ t.status = .error) := by
  have h := sessionInv_runStates ops (initSession sid b now) hadm
    (sessionInv_init sid b now) (by simp [initSession]) (by simp [initSession]) t ht
  exact ⟨h.1, h.2.1⟩

/-- Witness for C7 at the final state of a concrete lifetime. -/
theorem result_error_iff_status_witness :
    (sDoneW.results ≠ none ↔ sDoneW.status = .completed) ∧
    (sDoneW.error ≠ none ↔ sDoneW.status = .error) :=
  result_error_iff_status "sess-1" bodyW 0 opsW sDoneW (by decide) (runState_mem sInitW opsW)

/-- Claim C9: a create-session request whose breadth lies outside [1,10]
or whose depth lies outside [1,5] is rejected by validation before any
session is created: the registry is returned unchanged and the response
is an error. -/
theorem out_of_range_rejected (isUrl : String → Bool)
    (sessions : List (String × ResearchSession)) (sid : String) (now : Nat)
    (b : StartRequestBody)
    (hb : (∃ n, b.breadth = some n ∧ (n < 1 ∨ 10 < n)) ∨
          (∃ n, b.depth = some n ∧ (n < 1 ∨ 5 < n))) :
    (postResearch isUrl sessions sid now b).1 = sessions ∧
    (postResearch isUrl sessions sid now b).2 = .error "Validation error" := by
  have hv : startResearchValidate isUrl b = false := by
    rcases hb with ⟨n, hn, hrange⟩ | ⟨n, hn, hrange⟩
    · have hfalse : (decide (1 ≤ n) && decide (n ≤ 10)) = false := by
        rcases hrange with h | h
        · have hh : ¬ (1 ≤ n) := by omega
          simp [hh]
        · have hh : ¬ (n ≤ 10) := by omega
          simp [hh]
      simp [startResearchValidate, checkOpt, hn, hfalse]
    · have hfalse : (decide (1 ≤ n) && decide (n ≤ 5)) = false := by
        rcases hrange with h | h
        · have hh : ¬ (1 ≤ n) := by omega
          simp [hh]
        · have hh : ¬ (n ≤ 5) := by omega
          simp [hh]
      simp [startResearchValidate, checkOpt, hn, hfalse]
  exact ⟨by simp [postResearch, hv], by simp [postResearch, hv]⟩

/-- Witness for C9: breadth 0 is rejected and adds nothing to an empty
registry. -/
theorem out_of_range_rejected_witness :
    (postResearch (fun _ => true) [] "sess-1" 0 { query := "q", breadth := some 0 }).1 = [] ∧
    (postResearch (fun _ => true) [] "sess-1" 0 { query := "q", breadth := some 0 }).2 =
      .error "Validation error" :=
  out_of_range_rejected (fun _ => true) [] "sess-1" 0 { query := "q", breadth := some 0 }
    (Or.inl ⟨0, rfl, Or.inl (by decide)⟩)

/-- Claim C8: a subscriber attaching to an existing session before any
work has started (status pending) receives exactly one synthesized
progress replay whose counters are all zero (totals carrying the
session's configured depth and breadth); one attaching while the session
is in progress receives the last stored snapshot. -/
theorem replay_pending_inprogress (sid : String) (b : StartRequestBody) (now : Nat)
    (ops : List SessionOp) (t : ResearchSession)
    (hadm : admissible ops = true)
    (ht : t ∈ runStates (initSession sid b now) ops) :
    (t.status = .pending →
      initialUpdate t = .progress (some
        { currentDepth := 0
          totalDepth := t.depth
          currentBreadth := 0
          totalBreadth := t.breadth
          currentQuery := none
          totalQueries := 0
          completedQueries := 0 })) ∧
    (t.status = .inProgress →
      ∃ p, t.progress = some p ∧ initialUpdate t = .progress (some p)) := by
  have h := sessionInv_runStates ops (initSession sid b now) hadm
    (sessionInv_init sid b now) (by simp [initSession]) (by simp [initSession]) t ht
  obtain ⟨i1, i2, i3, i4⟩ := h
  constructor
  · intro hp
    have hres : t.results = none := by
      by_contra hc
      have hcq := i1.mp hc
      rw [hp] at hcq
      exact Status.noConfusion hcq
    have hprog : t.progress = none := i3 hp
    simp [initialUpdate, hres, hprog]
  · intro hp
    have hres : t.results = none := by
      by_contra hc
      have hcq := i1.mp hc
      rw [hp] at hcq
      exact Status.noConfusion hcq
    have hprog : t.progress ≠ none := i4 hp
    obtain ⟨p, hp'⟩ := Option.ne_none_iff_exists'.mp hprog
    exact ⟨p, hp', by simp [initialUpdate, hres, hp']⟩

/-- Witness for C8 on the freshly created session. -/
theorem replay_pending_inprogress_witness :
    (sInitW.status = .pending →
      initialUpdate sInitW = .progress (some
        { currentDepth := 0
          totalDepth := sInitW.depth
          currentBreadth := 0
          totalBreadth := sInitW.breadth
          currentQuery := none
          totalQueries := 0
          completedQueries := 0 })) ∧
    (sInitW.status = .inProgress →
      ∃ p, sInitW.progress = some p ∧ initialUpdate sInitW = .progress (some p)) :=
  replay_pending_inprogress "sess-1" bodyW 0 [] sInitW (by decide) (by decide)

/-- The concrete errored session: created, then the background task's
promise rejected before any progress update. -/
def sErrW : ResearchSession := runState sInitW [.fail "All research queries failed" 1]

/-- Claim C1 counterexample: a session that reached the error terminal
state, attached afterwards, is replayed a progress event with a zeroed
snapshot — not an error event carrying the message — because the
connection handler checks only session.results. -/
theorem terminal_replay_cex :
    sErrW.status = .error ∧
    sErrW.error = some "All research queries failed" ∧
    initialUpdate sErrW = .progress (some
      { currentDepth := 0
        totalDepth := 2
        currentBreadth := 0
        totalBreadth := 4
        currentQuery := none
        totalQueries := 0
        completedQueries := 0 }) ∧
    isTerminalEvent (initialUpdate sErrW) = false := by decide

/-- Claim C1 (amended): a subscriber attaching after a session has
completed receives exactly one replay event, a completed event carrying
the results; a subscriber attaching after a session has reached the
error state receives exactly one replay event, but it is a progress
event (the stored or zeroed snapshot), never an error event. -/
theorem terminal_replay (sid : String) (b : StartRequestBody) (now : Nat)
    (ops : List SessionOp) (t : ResearchSession)
    (hadm : admissible ops = true)
    (ht : t ∈ runStates (initSession sid b now) ops)
    (hid : sid.isEmpty = false) :
    wsConnect true (some sid) [(sid, t)] = .accepted (initialUpdate t) ∧
    (t.status = .completed → ∃ r, t.results = some r ∧ initialUpdate t = .completed r) ∧
    (t.status = .error →
      (∃ p, initialUpdate t = .progress (some p)) ∧ ∀ m, initialUpdate t ≠ .error m) := by
  have h := sessionInv_runStates ops (initSession sid b now) hadm
    (sessionInv_init sid b now) (by simp [initSession]) (by simp [initSession]) t ht
  obtain ⟨i1, i2, i3, i4⟩ := h
  refine ⟨by simp [wsConnect, lookupSession, hid], ?_, ?_⟩
  · intro hc
    have hr : t.results ≠ none := i1.mpr hc
    obtain ⟨r, hr'⟩ := Option.ne_none_iff_exists'.mp hr
    exact ⟨r, hr', by simp [initialUpdate, hr']⟩
  · intro he
    have hr : t.results = none := by
      by_contra hcon
      have hcq := i1.mp hcon
      rw [he] at hcq
      exact Status.noConfusion hcq
    refine ⟨?_, ?_⟩
    · cases hp : t.progress with
      | some p => exact ⟨p, by simp [initialUpdate, hr, hp]⟩
      | none =>
        exact ⟨{ currentDepth := 0
                 totalDepth := t.depth
                 currentBreadth := 0
                 totalBreadth := t.breadth
                 currentQuery := none
                 totalQueries := 0
                 completedQueries := 0 }, by simp [initialUpdate, hr, hp]⟩
    · intro m
      cases hp : t.progress <;> simp [initialUpdate, hr, hp]

/-- Witness for the amended C1 on a concrete completed session. -/
theorem terminal_replay_witness :
    wsConnect true (some "sess-1") [("sess-1", sDoneW)] = .accepted (initialUpdate sDoneW) ∧
    (sDoneW.status = .completed →
      ∃ r, sDoneW.results = some r ∧ initialUpdate sDoneW = .completed r) ∧
    (sDoneW.status = .error →
      (∃ p, initialUpdate sDoneW = .progress (some p)) ∧
      ∀ m, initialUpdate sDoneW ≠ .error m) :=
  terminal_replay "sess-1" bodyW 0 opsW sDoneW (by decide) (runState_mem sInitW opsW) (by decide)

/-- The concrete in-progress session: one progress update stored. -/
def sInProgW : ResearchSession := runState sInitW [.progress progW 1]

/-- The research phase's concrete aggregate. -/
def coreW : ResearchResultsCore :=
  { learnings := ["finding one"], visitedUrls := ["https://example.com/a"] }

/-- Claim C2 counterexample: the research phase succeeds but report
synthesis rejects; the session reaches the error state, yet
session.results stays null — the aggregated findings and visited URLs
are not available on the session. -/
theorem report_failure_cex :
    (settleSession sInProgW 2 (.ok coreW) (fun _ => .error "report synthesis failed")).1.status
        = .error ∧
    (settleSession sInProgW 2 (.ok coreW) (fun _ => .error "report synthesis failed")).1.error
        = some "report synthesis failed" ∧
    (settleSession sInProgW 2 (.ok coreW) (fun _ => .error "report synthesis failed")).1.results
        = none := by decide

/-- Claim C2 (amended): if report synthesis fails after the research
phase succeeded, the session transitions to the error terminal state
with the synthesis error recorded, but the aggregated findings and
visited URLs are not kept: session.results is left at its prior value
(null for any session that had not already completed), so they are
discarded. -/
theorem report_failure_discards (s : ResearchSession) (now : Nat)
    (core : ResearchResultsCore) (w : ResearchResultsCore → Except String String)
    (e : String) (hw : w core = .error e) :
    (settleSession s now (.ok core) w).1.status = .error ∧
    (settleSession s now (.ok core) w).1.error = some e ∧
    (settleSession s now (.ok core) w).1.results = s.results := by
  simp [settleSession, hw, failStep]

/-- Witness for the amended C2 on the concrete in-progress session. -/
theorem report_failure_discards_witness :
    (settleSession sInProgW 2 (.ok coreW) (fun _ => .error "report synthesis failed")).1.status
        = .error ∧
    (settleSession sInProgW 2 (.ok coreW) (fun _ => .error "report synthesis failed")).1.error
        = some "report synthesis failed" ∧
    (settleSession sInProgW 2 (.ok coreW) (fun _ => .error "report synthesis failed")).1.results
        = sInProgW.results :=
  report_failure_discards sInProgW 2 coreW (fun _ => .error "report synthesis failed")
    "report synthesis failed" rfl

/-- Claim C3, evaluated on the code at the failing input: additionalNotes
is folded into enhancedQuery, and enhancedQuery is exactly the query the
POST handler hands to deepResearch, so additionalNotes does modify the
query given to the research phase — contradicting the claim and the
repository's own API documentation, which says additionalNotes is used
only during report generation. -/
theorem additionalNotes_in_research_query :
    (launchOf { query := "q", additionalNotes := some "note" }).researchQuery
        = "q\n\nAdditional Context:\nnote" ∧
    (launchOf { query := "q", additionalNotes := some "note" }).researchQuery ≠ "q" ∧
    (launchOf { query := "q" }).researchQuery = "q" := by
  refine ⟨rfl, by decide, rfl⟩

/-- Claim C4, evaluated on the code at the failing input:
mainPromptNotes is destructured and stored on the session record but
consumed nowhere else; the launch handed to deepResearch (and the report
prompt) is identical with and without it, so it cannot affect query
planning — contradicting the claim and the repository's own API
documentation, which says mainPromptNotes influences the research. -/
theorem mainPromptNotes_ignored :
    launchOf { query := "q", mainPromptNotes := some "Focus on industry adoption" }
        = launchOf { query := "q" } ∧
    (initSession "sess-1"
        { query := "q", mainPromptNotes := some "Focus on industry adoption" } 0).mainPromptNotes
        = some "Focus on industry adoption" := by
  refine ⟨rfl, rfl⟩

/-- Claim C5 counterexample: the close code for an unknown session id
equals the close code for failed authentication — both 1008 — so the two
refusals are not distinguished by close code. -/
theorem close_codes_not_distinct :
    (wsConnect true (some "unknown-id") []).closeCode = some 1008 ∧
    (wsConnect false (some "unknown-id") []).closeCode = some 1008 ∧
    (wsConnect true (some "unknown-id") []).closeCode
        = (wsConnect false (some "unknown-id") []).closeCode := by decide

/-- Claim C5 (amended): an attach with an invalid or unknown sessionId
closes the channel with the same close code 1008 used when
authentication fails; the two cases are distinguished only by the close
reason string, 'Invalid session ID' versus 'Invalid API key'. -/
theorem close_reasons_distinct (sessions : List (String × ResearchSession))
    (sid : Option String)
    (hsid : sid = none ∨
      ∃ s, sid = some s ∧ (s.isEmpty = true ∨ lookupSession sessions s = none)) :
    wsConnect true sid sessions = .closed 1008 "Invalid session ID" ∧
    wsConnect false sid sessions = .closed 1008 "Invalid API key" ∧
    ("Invalid session ID" : String) ≠ "Invalid API key" := by
  refine ⟨?_, by simp [wsConnect], by decide⟩
  rcases hsid with rfl | ⟨s, rfl, hcase⟩
  · simp [wsConnect]
  · rcases hcase with hemp | hlook
    · simp [wsConnect, hemp]
    · by_cases hemp : s.isEmpty
      · simp [wsConnect, hemp]
      · simp [wsConnect, hemp, hlook]

/-- Witness for the amended C5 on a concrete unknown session id. -/
theorem close_reasons_distinct_witness :
    wsConnect true (some "unknown-id") [] = .closed 1008 "Invalid session ID" ∧
    wsConnect false (some "unknown-id") [] = .closed 1008 "Invalid API key" ∧
    ("Invalid session ID" : String) ≠ "Invalid API key" :=
  close_reasons_distinct [] (some "unknown-id") (Or.inr ⟨"unknown-id", rfl, Or.inr rfl⟩)

/-- Claim C10, evaluated on the code at the failing input: when
OutputManager.log fans a message out before any progress update has been
recorded (session.progress still null), the onOutput handler sends every
subscriber a progress event whose data field is null — the non-null
assertion in the handler defeats the non-nullable payload type declared
for progress events. -/
theorem onOutput_null_snapshot :
    sInitW.progress = none ∧
    onOutputEvent sInitW (logMessage ["Starting", "research"]) = .progress none ∧
    broadcastTo ["subscriber-1"] (onOutputEvent sInitW (logMessage ["Starting", "research"]))
        = [("subscriber-1", .progress none)] := by
  refine ⟨rfl, rfl, rfl⟩
